import Mathlib

/-!
Shallow embedding of the actuator control core of the repository: the
Driver and ReconfiguredDriver classes of the devices driver module.

Modelling conventions:
- machine clock time is passed explicitly as a rational number of seconds;
- Python ints are modelled as Int, Python floats exactly as rationals;
- a pulse duration value is a string (hardware symbolic duration), an int,
  or a float, mirroring the dynamic typing the source dispatches on;
- the process-wide delay scheduler holds at most one callback under the
  drivers unique timer name (name plus the suffix timed_enable, callback
  always the disable method), so that slot is modelled as an Option;
- commands issued to the hardware driver handle are recorded in an event
  trace field hwCmds.
-/

/-- A Python value usable as a pulse duration: a string (hardware symbolic
duration), an int, or a float (floats are modelled exactly as rationals). -/
inductive PyDur where
  | pstr (s : String)
  | pint (n : Int)
  | pfloat (q : ℚ)
deriving DecidableEq

/-- Python truthiness of a duration value, as tested by the source with
an if-not check. -/
def PyDur.truthy : PyDur → Bool
  | .pstr s => s != ""
  | .pint n => n != 0
  | .pfloat q => q != 0

/-- Numeric value of a duration. Used only where the source applies
arithmetic or compares against -1, which never happens on strings in the
reachable branches. -/
def PyDur.toQ : PyDur → ℚ
  | .pstr _ => 0
  | .pint n => (n : ℚ)
  | .pfloat q => q

/-- Commands issued to the hardware driver handle of one driver. -/
inductive HwCmd where
  | enable
  | disable
  | pulse (ms : PyDur)
deriving DecidableEq

/-- Runtime state of one driver: the two timing bookkeeping fields set in
the initializer, the pending delay-scheduler slot under the drivers unique
timer name, and the trace of commands issued to the hardware handle. -/
structure DriverState where
  time_last_changed : ℚ
  time_when_done : ℚ
  pendingTimer : Option PyDur
  hwCmds : List HwCmd
deriving DecidableEq

/-- External inputs the pulse method reads: the validated config value
pulse_ms, the machine-wide default_pulse_ms, and the platform feature
max_pulse. -/
structure PulseEnv where
  pulse_ms : PyDur
  default_pulse_ms : PyDur
  max_pulse : Int
deriving DecidableEq

/-- Modelled from the spec: the delay scheduler (machine.delay) is not
under src; per the spec, reset schedules or replaces the named callback,
so the slot always holds exactly the new delay afterwards. -/
def delayReset (_pending : Option PyDur) (ms : PyDur) : Option PyDur :=
  some ms

/-- Modelled from the spec: the delay scheduler (machine.delay) is not
under src; per the spec, remove-by-name clears the named callback and is
a no-op (not an error) when none is pending, so it is a total function
returning the empty slot. -/
def delayRemove (_pending : Option PyDur) : Option PyDur :=
  none

/-- State after the Driver initializer: both timing fields are 0, no
pending timer, no hardware command issued yet. -/
def Driver.init : DriverState :=
  { time_last_changed := 0
    time_when_done := 0
    pendingTimer := none
    hwCmds := [] }

/-- The enable method: sets time_when_done to -1, time_last_changed to the
clock time, and issues the hardware enable command. The source does not
touch the delay scheduler here. -/
def Driver.enable (now : ℚ) (s : DriverState) : DriverState :=
  { s with
    time_when_done := -1
    time_last_changed := now
    hwCmds := s.hwCmds ++ [HwCmd.enable] }

/-- The disable method: sets time_last_changed to the clock time,
time_when_done to that same value, removes the named pending callback from
the delay scheduler, and issues the hardware disable command. -/
def Driver.disable (now : ℚ) (s : DriverState) : DriverState :=
  { s with
    time_last_changed := now
    time_when_done := now
    pendingTimer := delayRemove s.pendingTimer
    hwCmds := s.hwCmds ++ [HwCmd.disable] }

/-- The power-scaling step of the pulse method: when power is truthy and
the duration is an int, the duration is multiplied by power (an int times
a float is a float in Python); in every other case the duration is kept
and power is normalized to 1.0. Returns the duration and the power value
after the step. -/
def scaleStep (ms : PyDur) (power : Option ℚ) : PyDur × ℚ :=
  match power, ms with
  | some p, .pint n => if p = 0 then (ms, 1) else (.pfloat ((n : ℚ) * p), p)
  | _, _ => (ms, 1)

/-- Duration resolution of the pulse method: a falsy milliseconds argument
falls back to the config value pulse_ms if truthy, else to the machine
default; then the power-scaling step is applied. -/
def Driver.resolveDuration (env : PulseEnv) (ms? : Option PyDur)
    (power : Option ℚ) : PyDur × ℚ :=
  let falsy : Bool := match ms? with
    | none => true
    | some m => !m.truthy
  let ms0 : PyDur :=
    if falsy then (if env.pulse_ms.truthy then env.pulse_ms else env.default_pulse_ms)
    else ms?.getD (.pint 0)
  scaleStep ms0 power

/-- Dispatch condition of the pulse method: true when the resolved
duration is a string, or an int strictly positive and at most the platform
feature max_pulse; then the hardware pulse is used. -/
def hwPath (ms : PyDur) (maxPulse : Int) : Bool :=
  match ms with
  | .pstr _ => true
  | .pint n => decide (0 < n) && decide (n ≤ maxPulse)
  | .pfloat _ => false

/-- The pulse method. The argument hwRet is the actual duration returned
by the hardware pulse call (used only on the hardware path; -1 is the
self-managed sentinel). On the hardware path the hardware pulse command is
issued and the timing is computed from hwRet. Otherwise the named delay
callback is reset to fire disable after the resolved duration, enable is
called, and the timing is computed from the resolved duration. -/
def Driver.pulse (env : PulseEnv) (now : ℚ) (hwRet : ℚ) (ms? : Option PyDur)
    (power : Option ℚ) (s : DriverState) : DriverState :=
  let ms := (Driver.resolveDuration env ms? power).1
  if hwPath ms env.max_pulse then
    let s1 : DriverState := { s with hwCmds := s.hwCmds ++ [HwCmd.pulse ms] }
    if hwRet ≠ -1 then
      { s1 with time_when_done := s1.time_last_changed + hwRet / 1000 }
    else
      { s1 with time_when_done := -1 }
  else
    let s1 : DriverState := { s with pendingTimer := delayReset s.pendingTimer ms }
    let s2 : DriverState := Driver.enable now s1
    let s3 : DriverState :=
      { s2 with time_when_done := s2.time_last_changed + ms.toQ / 1000 }
    if ms.toQ ≠ -1 then
      { s3 with time_when_done := s3.time_last_changed + ms.toQ / 1000 }
    else
      { s3 with time_when_done := -1 }

/-- The timed_enable method simply calls pulse with the given duration. -/
def Driver.timed_enable (env : PulseEnv) (now : ℚ) (hwRet : ℚ) (ms : PyDur)
    (s : DriverState) : DriverState :=
  Driver.pulse env now hwRet (some ms) none s

/-- A switch, identified by name, reporting its platform backend. -/
structure Switch where
  name : String
  platform : String
deriving DecidableEq

/-- Autonomous rules installed on the platform backend. -/
inductive RuleEvent where
  | pulse_on_hit (sw : String)
  | pulse_on_hit_and_release (sw : String)
  | pulse_on_hit_and_enable_and_release (sw : String)
deriving DecidableEq

/-- The platform check performed before every rule install: raises when
the switch platform differs from the driver platform. -/
def Driver.check_platform (platform : String) (sw : Switch) :
    Except String Unit :=
  if platform ≠ sw.platform then
    Except.error "Switch and Coil have to use the same platform"
  else
    Except.ok ()

/-- Rule install: checks the platform, then asks the platform backend to
install the pulse-on-hit rule. The rule list models the rules installed on
the platform backend. -/
def Driver.set_pulse_on_hit_rule (platform : String) (sw : Switch)
    (rules : List RuleEvent) : Except String (List RuleEvent) :=
  match Driver.check_platform platform sw with
  | Except.error e => Except.error e
  | Except.ok _ => Except.ok (rules ++ [RuleEvent.pulse_on_hit sw.name])

/-- Rule install: checks the platform, then asks the platform backend to
install the pulse-on-hit-and-release rule. -/
def Driver.set_pulse_on_hit_and_release_rule (platform : String)
    (sw : Switch) (rules : List RuleEvent) : Except String (List RuleEvent) :=
  match Driver.check_platform platform sw with
  | Except.error e => Except.error e
  | Except.ok _ => Except.ok (rules ++ [RuleEvent.pulse_on_hit_and_release sw.name])

/-- Rule install: checks the platform, then asks the platform backend to
install the pulse-on-hit-and-enable-and-release rule. -/
def Driver.set_pulse_on_hit_and_enable_and_release_rule (platform : String)
    (sw : Switch) (rules : List RuleEvent) : Except String (List RuleEvent) :=
  match Driver.check_platform platform sw with
  | Except.error e => Except.error e
  | Except.ok _ =>
      Except.ok (rules ++ [RuleEvent.pulse_on_hit_and_enable_and_release sw.name])

/-- The config property of ReconfiguredDriver: deep-copy the base config
(building a fresh mapping severs all sharing, which the pure model renders
as constructing a new function), then overwrite each key whose override
value is not None. The base mapping passed in is never changed. -/
def ReconfiguredDriver.config (base : String → Option PyDur) :
    List (String × Option PyDur) → String → Option PyDur
  | [] => base
  | (name, some v) :: rest =>
      ReconfiguredDriver.config (fun k => if k = name then some v else base k) rest
  | (_, none) :: rest => ReconfiguredDriver.config base rest

/-- Runtime state of a ReconfiguredDriver overlay. Its initializer sets
only the wrapped driver and the override mapping, so the overlay instance
starts with no timing attributes of its own; reading a missing attribute
falls through to the base, but an attribute assignment made by an
inherited method creates a shadow attribute on the overlay instance. The
delay scheduler slot and the hardware handle are reached through the base
(the overlay has no name or hw_driver attribute of its own). -/
structure OverlayState where
  base : DriverState
  ownTimeLastChanged : Option ℚ
  ownTimeWhenDone : Option ℚ
deriving DecidableEq

/-- The inherited enable method executed on an overlay instance: the
hardware enable goes to the base hardware handle, but the two timing
assignments create shadow attributes on the overlay; the base timing
fields are untouched. -/
def ReconfiguredDriver.enable (now : ℚ) (o : OverlayState) : OverlayState :=
  { o with
    ownTimeWhenDone := some (-1)
    ownTimeLastChanged := some now
    base := { o.base with hwCmds := o.base.hwCmds ++ [HwCmd.enable] } }

/-- The inherited disable method executed on an overlay instance: the
hardware disable and the delay-slot removal act on the base (shared timer
name, shared hardware handle), but the two timing assignments create
shadow attributes on the overlay; the base timing fields are untouched. -/
def ReconfiguredDriver.disable (now : ℚ) (o : OverlayState) : OverlayState :=
  { o with
    ownTimeLastChanged := some now
    ownTimeWhenDone := some now
    base := { o.base with
              pendingTimer := delayRemove o.base.pendingTimer
              hwCmds := o.base.hwCmds ++ [HwCmd.disable] } }

/-- A duration value that is numeric (an int or a float), following the
wording of the dispatch claim. -/
def PyDur.isNumeric : PyDur → Bool
  | .pstr _ => false
  | .pint _ => true
  | .pfloat _ => true

/-- Example base configuration holding pulse_ms 10, used by the overlay
round-trip statements. -/
def base10 : String → Option PyDur :=
  fun k => if k = "pulse_ms" then some (.pint 10) else none

/-- Claim C10: a freshly constructed actuator has time_last_changed 0 and
time_when_done 0; the two are equal (the currently-inactive convention)
and time_when_done is at least time_last_changed. -/
theorem init_inactive :
    Driver.init.time_last_changed = 0 ∧ Driver.init.time_when_done = 0
    ∧ Driver.init.time_when_done = Driver.init.time_last_changed
    ∧ Driver.init.time_last_changed ≤ Driver.init.time_when_done := by
  refine ⟨rfl, rfl, rfl, le_refl _⟩

/-- Claim C2, counterexample: the claim states that enable cancels any
previously pending software-timed self-disable timer, but the enable
method never touches the delay scheduler; starting from a state with a
pending 400 ms timer, the timer is still pending after enable. -/
theorem enable_keeps_pending_timer_cex :
    (Driver.enable 5 { Driver.init with pendingTimer := some (.pint 400) }).pendingTimer
      = some (.pint 400)
    ∧ (Driver.enable 5 { Driver.init with pendingTimer := some (.pint 400) }).pendingTimer
      ≠ none := by
  refine ⟨rfl, by decide⟩

/-- Claim C2, amended: after enable, time_when_done is -1,
time_last_changed is the clock time at the call, the hardware enable
command has been issued, and the pending timer slot is left exactly as it
was (a previously pending self-disable timer is NOT canceled). -/
theorem enable_effects (s : DriverState) (now : ℚ) :
    (Driver.enable now s).time_when_done = -1
    ∧ (Driver.enable now s).time_last_changed = now
    ∧ (Driver.enable now s).hwCmds = s.hwCmds ++ [HwCmd.enable]
    ∧ (Driver.enable now s).pendingTimer = s.pendingTimer := by
  exact ⟨rfl, rfl, rfl, rfl⟩

/-- Claim C5: after disable, time_last_changed is the clock time at the
call, time_when_done equals time_last_changed (the actuator reads as
inactive), the pending named self-disable callback is removed (removal is
total, hence a no-op rather than an error when none is pending), and the
hardware disable command has been issued. -/
theorem disable_effects (s : DriverState) (now : ℚ) :
    (Driver.disable now s).time_last_changed = now
    ∧ (Driver.disable now s).time_when_done = (Driver.disable now s).time_last_changed
    ∧ (Driver.disable now s).pendingTimer = none
    ∧ (Driver.disable now s).hwCmds = s.hwCmds ++ [HwCmd.disable] := by
  exact ⟨rfl, rfl, rfl, rfl⟩

/-- Claim C9, counterexample: the claim states that invoking an operation
on the overlay has the same effect as invoking it directly on the base
actuator, including updating the base timing bookkeeping; but enable on a
fresh overlay leaves the base time_when_done at 0, while a direct enable
on the base sets it to -1. -/
theorem overlay_enable_not_on_base_cex :
    (ReconfiguredDriver.enable 5 ⟨Driver.init, none, none⟩).base.time_when_done = 0
    ∧ (Driver.enable 5 Driver.init).time_when_done = -1
    ∧ (ReconfiguredDriver.enable 5 ⟨Driver.init, none, none⟩).base
      ≠ Driver.enable 5 Driver.init := by
  refine ⟨rfl, rfl, by decide⟩

/-- Claim C9, amended: enable and disable invoked on the overlay issue the
same hardware command through the base hardware handle as a direct call
would (and disable clears the shared pending-timer slot), but the timing
bookkeeping is written to overlay-local shadow attributes; the base
time_last_changed and time_when_done fields are unchanged. -/
theorem overlay_forward_effects (o : OverlayState) (now : ℚ) :
    (ReconfiguredDriver.enable now o).base.hwCmds = o.base.hwCmds ++ [HwCmd.enable]
    ∧ (ReconfiguredDriver.enable now o).base.time_last_changed = o.base.time_last_changed
    ∧ (ReconfiguredDriver.enable now o).base.time_when_done = o.base.time_when_done
    ∧ (ReconfiguredDriver.enable now o).base.pendingTimer = o.base.pendingTimer
    ∧ (ReconfiguredDriver.enable now o).ownTimeWhenDone = some (-1)
    ∧ (ReconfiguredDriver.enable now o).ownTimeLastChanged = some now
    ∧ (ReconfiguredDriver.disable now o).base.hwCmds = o.base.hwCmds ++ [HwCmd.disable]
    ∧ (ReconfiguredDriver.disable now o).base.pendingTimer = none
    ∧ (ReconfiguredDriver.disable now o).base.time_last_changed = o.base.time_last_changed
    ∧ (ReconfiguredDriver.disable now o).base.time_when_done = o.base.time_when_done
    ∧ (ReconfiguredDriver.disable now o).ownTimeLastChanged = some now
    ∧ (ReconfiguredDriver.disable now o).ownTimeWhenDone = some now := by
  exact ⟨rfl, rfl, rfl, rfl, rfl, rfl, rfl, rfl, rfl, rfl, rfl, rfl⟩

/-- Claim C1, counterexample: the claim states that a resolved duration
that is numeric and within the max_pulse ceiling delegates to the
hardware pulse and registers no software timer. With pulse_ms 10, default
10, ceiling 255, the call pulse with milliseconds 100 and power one half
resolves to the float 50, which is numeric and within the ceiling, yet
the code takes the software-timed path: it registers a 50 ms timer and
issues the hardware enable command, not a hardware pulse. -/
theorem pulse_numeric_within_ceiling_cex :
    (Driver.resolveDuration ⟨.pint 10, .pint 10, 255⟩ (some (.pint 100))
        (some ((1 : ℚ)/2))).1 = .pfloat 50
    ∧ PyDur.isNumeric (.pfloat 50) = true
    ∧ ((0 : ℚ) < 50 ∧ (50 : ℚ) ≤ 255)
    ∧ (Driver.pulse ⟨.pint 10, .pint 10, 255⟩ 5 20 (some (.pint 100))
        (some ((1 : ℚ)/2)) Driver.init).pendingTimer = some (.pfloat 50)
    ∧ (Driver.pulse ⟨.pint 10, .pint 10, 255⟩ 5 20 (some (.pint 100))
        (some ((1 : ℚ)/2)) Driver.init).hwCmds = [HwCmd.enable] := by
  have hres : (Driver.resolveDuration ⟨.pint 10, .pint 10, 255⟩ (some (.pint 100))
      (some ((1 : ℚ)/2))).1 = .pfloat 50 := by
    show (scaleStep (.pint 100) (some ((1 : ℚ)/2))).1 = .pfloat 50
    simp only [scaleStep]
    norm_num
  have hpath : hwPath (.pfloat 50) (255 : Int) = false := rfl
  have hne : ((50 : ℚ)) ≠ -1 := by norm_num
  refine ⟨hres, rfl, ⟨by norm_num, by norm_num⟩, ?_, ?_⟩
  · simp only [Driver.pulse]
    rw [hres]
    norm_num [hwPath, PyDur.toQ, delayReset, Driver.enable, Driver.init]
  · simp only [Driver.pulse]
    rw [hres]
    norm_num [hwPath, PyDur.toQ, delayReset, Driver.enable, Driver.init]

/-- Claim C1, amended: the hardware path is taken exactly when the
resolved duration is a string or an int strictly between 0 and the
max_pulse ceiling inclusive; then the hardware pulse command is issued,
no software timer is registered (the pending slot is untouched),
time_last_changed is not updated, and time_when_done becomes
time_last_changed plus the actual hardware duration over 1000, or -1 on
the self-managed sentinel. Otherwise (floats, for example produced by
power scaling, and ints outside that range) the call registers exactly
one software timer under the actuator timer name firing disable after
the resolved duration, issues the hardware enable command, sets
time_last_changed to the clock time and time_when_done to that time plus
the duration over 1000 (or -1 for a duration equal to -1). -/
theorem pulse_dispatch (env : PulseEnv) (now hwRet : ℚ) (ms? : Option PyDur)
    (power : Option ℚ) (s : DriverState) :
    (hwPath (Driver.resolveDuration env ms? power).1 env.max_pulse = true →
        (Driver.pulse env now hwRet ms? power s).pendingTimer = s.pendingTimer
      ∧ (Driver.pulse env now hwRet ms? power s).hwCmds
          = s.hwCmds ++ [HwCmd.pulse (Driver.resolveDuration env ms? power).1]
      ∧ (Driver.pulse env now hwRet ms? power s).time_last_changed
          = s.time_last_changed
      ∧ (Driver.pulse env now hwRet ms? power s).time_when_done
          = (if hwRet ≠ -1 then s.time_last_changed + hwRet / 1000 else -1))
    ∧ (hwPath (Driver.resolveDuration env ms? power).1 env.max_pulse = false →
        (Driver.pulse env now hwRet ms? power s).pendingTimer
          = some (Driver.resolveDuration env ms? power).1
      ∧ (Driver.pulse env now hwRet ms? power s).hwCmds = s.hwCmds ++ [HwCmd.enable]
      ∧ (Driver.pulse env now hwRet ms? power s).time_last_changed = now
      ∧ (Driver.pulse env now hwRet ms? power s).time_when_done
          = (if (Driver.resolveDuration env ms? power).1.toQ ≠ -1
             then now + (Driver.resolveDuration env ms? power).1.toQ / 1000
             else -1)) := by
  constructor
  · intro h
    by_cases hr : hwRet ≠ -1 <;>
      simp [Driver.pulse, h, hr, delayReset]
  · intro h
    by_cases hr : (Driver.resolveDuration env ms? power).1.toQ ≠ -1 <;>
      simp [Driver.pulse, h, hr, delayReset, Driver.enable]

/-- Claim C1, witness: with pulse_ms 25 and ceiling 255, a pulse with no
arguments takes the hardware path (hardware returns 25): no timer is
registered and time_when_done becomes 25 over 1000; with a requested 400
ms pulse over the same ceiling the software path is taken: a 400 ms timer
is registered and time_when_done becomes the clock time 7 plus 400 over
1000. -/
theorem pulse_dispatch_witness :
    (Driver.pulse ⟨.pint 25, .pint 10, 255⟩ 5 25 none none Driver.init).pendingTimer = none
    ∧ (Driver.pulse ⟨.pint 25, .pint 10, 255⟩ 5 25 none none Driver.init).time_when_done
        = 25 / 1000
    ∧ (Driver.pulse ⟨.pint 25, .pint 10, 255⟩ 7 0 (some (.pint 400)) none
        Driver.init).pendingTimer = some (.pint 400)
    ∧ (Driver.pulse ⟨.pint 25, .pint 10, 255⟩ 7 0 (some (.pint 400)) none
        Driver.init).time_when_done = 7 + 400 / 1000 := by
  have e1 : (Driver.resolveDuration ⟨.pint 25, .pint 10, 255⟩ none none).1
      = .pint 25 := rfl
  have e2 : (Driver.resolveDuration ⟨.pint 25, .pint 10, 255⟩ (some (.pint 400))
      none).1 = .pint 400 := rfl
  have h1 := (pulse_dispatch ⟨.pint 25, .pint 10, 255⟩ 5 25 none none Driver.init).1
    (by decide)
  have h2 := (pulse_dispatch ⟨.pint 25, .pint 10, 255⟩ 7 0 (some (.pint 400)) none
    Driver.init).2 (by decide)
  refine ⟨h1.1, ?_, ?_, ?_⟩
  · rw [h1.2.2.2]
    norm_num [Driver.init]
  · have h := h2.1
    rw [e2] at h
    exact h
  · have h := h2.2.2.2
    rw [e2] at h
    rw [h]
    norm_num [PyDur.toQ]

/-- Claim C3, counterexample: the claim states that each new pulse call
cancels or replaces any previously pending self-disable timer before
possibly scheduling a new one; but a pulse taking the hardware path (10
ms within ceiling 255) leaves a previously pending 400 ms timer in
place, so the earlier timed activation still fires after the later
call. -/
theorem hardware_pulse_keeps_pending_timer_cex :
    (Driver.pulse ⟨.pint 10, .pint 10, 255⟩ 5 10 (some (.pint 10)) none
        { Driver.init with pendingTimer := some (.pint 400) }).pendingTimer
      = some (.pint 400) := by
  have e : (Driver.resolveDuration ⟨.pint 10, .pint 10, 255⟩ (some (.pint 10))
      none).1 = .pint 10 := rfl
  have hten : ((10 : ℚ)) ≠ -1 := by norm_num
  simp [Driver.pulse, e, hwPath, hten]

/-- Claim C3, amended: the drivers sole timer lives in the single slot
named after the driver, so at most one pending self-disable timer exists
per actuator at any time; disable removes the pending timer and a
software-path pulse replaces it with the new duration, but enable and a
hardware-path pulse leave any pending timer unchanged. -/
theorem timer_slot :
    (∀ (s : DriverState) (now : ℚ), (Driver.disable now s).pendingTimer = none)
    ∧ (∀ (s : DriverState) (now : ℚ), (Driver.enable now s).pendingTimer = s.pendingTimer)
    ∧ (∀ (env : PulseEnv) (now hwRet : ℚ) (ms? : Option PyDur) (power : Option ℚ)
        (s : DriverState),
        hwPath (Driver.resolveDuration env ms? power).1 env.max_pulse = true →
          (Driver.pulse env now hwRet ms? power s).pendingTimer = s.pendingTimer)
    ∧ (∀ (env : PulseEnv) (now hwRet : ℚ) (ms? : Option PyDur) (power : Option ℚ)
        (s : DriverState),
        hwPath (Driver.resolveDuration env ms? power).1 env.max_pulse = false →
          (Driver.pulse env now hwRet ms? power s).pendingTimer
            = some (Driver.resolveDuration env ms? power).1) := by
  refine ⟨fun s now => rfl, fun s now => rfl, ?_, ?_⟩
  · intro env now hwRet ms? power s h
    by_cases hr : hwRet ≠ -1 <;>
      simp [Driver.pulse, h, hr]
  · intro env now hwRet ms? power s h
    by_cases hr : (Driver.resolveDuration env ms? power).1.toQ ≠ -1 <;>
      simp [Driver.pulse, h, hr, delayReset, Driver.enable]

/-- Claim C3, witness: a software-path pulse of 300 ms replaces a pending
400 ms timer with a 300 ms one, and disable then removes it. -/
theorem timer_slot_witness :
    (Driver.pulse ⟨.pint 10, .pint 10, 255⟩ 5 0 (some (.pint 300)) none
        { Driver.init with pendingTimer := some (.pint 400) }).pendingTimer
      = some (.pint 300)
    ∧ (Driver.disable 6 { Driver.init with pendingTimer := some (.pint 400) }).pendingTimer
      = none := by
  constructor
  · have e : (Driver.resolveDuration ⟨.pint 10, .pint 10, 255⟩ (some (.pint 300))
        none).1 = .pint 300 := rfl
    have h := timer_slot.2.2.2 ⟨.pint 10, .pint 10, 255⟩ 5 0 (some (.pint 300)) none
      { Driver.init with pendingTimer := some (.pint 400) } (by decide)
    rw [e] at h
    exact h
  · exact timer_slot.1 { Driver.init with pendingTimer := some (.pint 400) } 6

/-- Claim C4, counterexample: the claim states that whenever power is
supplied and the resolved duration is a plain numeric value, the
effective duration is the duration scaled by power; but the source guards
the scaling with the Python truthiness of power, so a supplied power of
0.0 is skipped: the duration 100 stays 100 (the claim would demand the
scaled value 0) and power is normalized to 1.0. -/
theorem power_zero_unscaled_cex :
    scaleStep (.pint 100) (some (0 : ℚ)) = (.pint 100, 1)
    ∧ scaleStep (.pint 100) (some (0 : ℚ)) ≠ (.pfloat ((100 : ℚ) * 0), 0) := by
  constructor
  · simp [scaleStep]
  · simp [scaleStep]

/-- Claim C4, amended: if power is supplied, nonzero, and the resolved
duration is an int, the effective duration is the duration times power
(an int times a float gives a float, so pulse 100 with power one half
gives the effective duration 50 ms); if the duration is a string, or
power is absent or zero, the duration is left unscaled and power is
normalized to 1.0 for reporting. -/
theorem power_scaling (n : Int) (p : ℚ) (hp : p ≠ 0) (str : String) :
    scaleStep (.pint n) (some p) = (.pfloat ((n : ℚ) * p), p)
    ∧ (∀ q : Option ℚ, scaleStep (.pstr str) q = (.pstr str, 1))
    ∧ (∀ d : PyDur, scaleStep d none = (d, 1))
    ∧ Driver.resolveDuration ⟨.pint 10, .pint 10, 255⟩ (some (.pint 100))
        (some ((1 : ℚ)/2)) = (.pfloat 50, 1/2) := by
  refine ⟨by simp [scaleStep, hp], ?_, ?_, ?_⟩
  · intro q
    match q with
    | none => rfl
    | some x => rfl
  · intro d
    match d with
    | .pstr s => rfl
    | .pint n => rfl
    | .pfloat x => rfl
  · show scaleStep (.pint 100) (some ((1 : ℚ)/2)) = (.pfloat 50, 1/2)
    simp only [scaleStep]
    norm_num

/-- Claim C4, witness: scaling an int duration of 100 by the nonzero
power one half yields the float duration 50. -/
theorem power_scaling_witness :
    scaleStep (.pint 100) (some ((1 : ℚ)/2)) = (.pfloat 50, 1/2) := by
  have h := (power_scaling 100 ((1 : ℚ)/2) (by norm_num) "x").1
  rw [h]
  norm_num

/-- Helper for the overlay merge: a key that does not occur with a
non-None value in the override list keeps its base value. -/
theorem config_skip (base : String → Option PyDur)
    (ovr : List (String × Option PyDur)) (k : String)
    (h : ∀ v : PyDur, (k, some v) ∉ ovr) :
    ReconfiguredDriver.config base ovr k = base k := by
  induction ovr generalizing base with
  | nil => rfl
  | cons p rest ih =>
      obtain ⟨name, item⟩ := p
      match item with
      | none =>
          exact ih base fun v hv => h v (List.mem_cons_of_mem _ hv)
      | some v =>
          have hk : k ≠ name := by
            intro he
            exact h v (by rw [he]; exact List.mem_cons_self _ _)
          have step : ReconfiguredDriver.config base ((name, some v) :: rest) k
              = ReconfiguredDriver.config
                  (fun q => if q = name then some v else base q) rest k := rfl
          rw [step, ih (fun q => if q = name then some v else base q)
            (fun w hw => h w (List.mem_cons_of_mem _ hw))]
          simp [hk]

/-- Claim C6: the merged configuration read deep-copies the base and
overwrites only the keys whose override value is non-None: a key with no
non-None override keeps exactly its base value for every base and every
override list, and on the concrete round trip an override of pulse_ms 50
over a base with pulse_ms 10 merges to 50 while the base mapping still
reads 10 afterwards (the pure merge builds a fresh mapping and never
changes the base). -/
theorem overlay_merge_correct :
    (∀ (base : String → Option PyDur) (ovr : List (String × Option PyDur))
        (k : String), (∀ v : PyDur, (k, some v) ∉ ovr) →
          ReconfiguredDriver.config base ovr k = base k)
    ∧ ReconfiguredDriver.config base10 [("pulse_ms", some (.pint 50))] "pulse_ms"
        = some (.pint 50)
    ∧ base10 "pulse_ms" = some (.pint 10) := by
  refine ⟨config_skip, ?_, ?_⟩
  · show (fun k => if k = "pulse_ms" then some (PyDur.pint 50) else base10 k) "pulse_ms"
      = some (.pint 50)
    simp
  · rfl

/-- Claim C6, witness: with the base holding pulse_ms 10 and the single
override pulse_ms 50, a key that is not overridden, here hold_power,
keeps its base value. -/
theorem overlay_merge_correct_witness :
    ReconfiguredDriver.config base10 [("pulse_ms", some (.pint 50))] "hold_power"
      = base10 "hold_power" := by
  refine overlay_merge_correct.1 base10 [("pulse_ms", some (.pint 50))] "hold_power" ?_
  intro v hv
  rw [List.mem_singleton] at hv
  have : "hold_power" = "pulse_ms" := congrArg Prod.fst hv
  exact absurd this (by decide)

/-- Claim C7, counterexample: the claim states that a merged-configuration
read of an overlay whose override mapping holds an unrecognized key fails
with ConfigurationError; but the config property of ReconfiguredDriver
performs no key validation at all (it is a total merge with no raise
statement in its body), so reading with the unrecognized override key
typo_key succeeds and silently includes it, while the base does not know
the key. -/
theorem overlay_unknown_key_silent_cex :
    ReconfiguredDriver.config
        (fun k => if k = "pulse_ms" then some (.pint 10) else none)
        [("typo_key", some (.pint 5))] "typo_key" = some (.pint 5)
    ∧ (fun k => if k = "pulse_ms" then some (PyDur.pint 10) else none) "typo_key"
        = none := by
  constructor
  · show (fun k => if k = "typo_key" then some (PyDur.pint 5)
        else if k = "pulse_ms" then some (PyDur.pint 10) else none) "typo_key"
      = some (.pint 5)
    simp
  · simp

/-- Claim C7, amended: merged-configuration reads never fail: the merge is
a total function, and an override key absent from the base configuration
is silently added to the merged configuration with its override value
instead of raising ConfigurationError. -/
theorem overlay_merge_total (base : String → Option PyDur) (k : String) (v : PyDur) :
    ReconfiguredDriver.config base [(k, some v)] k = some v := by
  show (fun q => if q = k then some v else base q) k = some v
  simp

/-- Claim C8: every rule install first checks that the switch reports the
same platform backend as the driver; on a mismatch the call fails with
the platform error and installs nothing (the rule list is not extended),
and on a match exactly the corresponding rule is installed. -/
theorem hw_rule_platform_guard (platform : String) (sw : Switch)
    (rules : List RuleEvent) :
    (platform ≠ sw.platform →
        Driver.set_pulse_on_hit_rule platform sw rules
          = Except.error "Switch and Coil have to use the same platform"
      ∧ Driver.set_pulse_on_hit_and_release_rule platform sw rules
          = Except.error "Switch and Coil have to use the same platform"
      ∧ Driver.set_pulse_on_hit_and_enable_and_release_rule platform sw rules
          = Except.error "Switch and Coil have to use the same platform")
    ∧ (platform = sw.platform →
        Driver.set_pulse_on_hit_rule platform sw rules
          = Except.ok (rules ++ [RuleEvent.pulse_on_hit sw.name])
      ∧ Driver.set_pulse_on_hit_and_release_rule platform sw rules
          = Except.ok (rules ++ [RuleEvent.pulse_on_hit_and_release sw.name])
      ∧ Driver.set_pulse_on_hit_and_enable_and_release_rule platform sw rules
          = Except.ok (rules ++ [RuleEvent.pulse_on_hit_and_enable_and_release sw.name])) := by
  constructor
  · intro h
    refine ⟨?_, ?_, ?_⟩ <;>
      simp [Driver.set_pulse_on_hit_rule, Driver.set_pulse_on_hit_and_release_rule,
        Driver.set_pulse_on_hit_and_enable_and_release_rule, Driver.check_platform, h]
  · intro h
    refine ⟨?_, ?_, ?_⟩ <;>
      simp [Driver.set_pulse_on_hit_rule, Driver.set_pulse_on_hit_and_release_rule,
        Driver.set_pulse_on_hit_and_enable_and_release_rule, Driver.check_platform, h]

/-- Claim C8, witness: with the driver on backend fast, installing a hit
rule from a switch on backend p_roc fails with the platform error, while
a switch on backend fast installs exactly the hit rule. -/
theorem hw_rule_platform_guard_witness :
    Driver.set_pulse_on_hit_rule "fast" ⟨"sw1", "p_roc"⟩ []
      = Except.error "Switch and Coil have to use the same platform"
    ∧ Driver.set_pulse_on_hit_rule "fast" ⟨"sw1", "fast"⟩ []
      = Except.ok [RuleEvent.pulse_on_hit "sw1"] := by
  constructor
  · exact ((hw_rule_platform_guard "fast" ⟨"sw1", "p_roc"⟩ []).1 (by decide)).1
  · exact ((hw_rule_platform_guard "fast" ⟨"sw1", "fast"⟩ []).2 rfl).1
